import Mathlib

/-!
Verification of the DORA-compliance core of this repository.

Shallow embedding of:
* `modal-workers/parsers/dora_mapping.py` — the DORA article table,
  `map_controls_to_dora` and `calculate_dora_coverage`;
* `modal-workers/parsers/test_dora_mapping.py` — the repository's own
  reference scorer `calculate_effective_coverage` (the effectiveness-weighted
  algorithm its test suite asserts);
* `modal-workers/parsers/soc2_parser_optimized.py` — strategy selection
  (`parse`, lines 117-126), the metadata/control field parsers
  (`_parse_metadata`, `_parse_controls`) and `_parse_date`.

Python floats are modelled as exact rationals (ℚ); `round(x, 3)` is modelled
as rounding `x*1000` to the nearest integer (no claim below depends on the
behaviour at exact ties).  Python `str.upper()` / `str.lower()` are modelled
by mapping `Char.toUpper` / `Char.toLower` over the characters (the category
codes and keywords involved are all ASCII).
-/

/-- Model of Python `str.upper()` (ASCII-faithful). -/
def upperStr (s : String) : String := ⟨s.data.map Char.toUpper⟩

/-- Model of Python `str.lower()` (ASCII-faithful). -/
def lowerStr (s : String) : String := ⟨s.data.map Char.toLower⟩

/-- Model of Python `round(x, 3)`: round to 3 decimal places. -/
def round3 (q : ℚ) : ℚ := (round (q * 1000) : ℚ) / 1000

/-- Embedding of `types.py::TestResult`. -/
inductive TestResult where
  | operating_effectively
  | exception
  | not_tested
deriving DecidableEq

/-- Embedding of `types.py::ExtractionStrategy`. -/
inductive ExtractionStrategy where
  | single_pass
  | two_pass
  | parallel
deriving DecidableEq

/-- Embedding of `types.py::ReportType`. -/
inductive ReportType where
  | type1
  | type2
deriving DecidableEq

/-- Embedding of `types.py::OpinionType`. -/
inductive OpinionType where
  | unqualified
  | qualified
  | adverse
deriving DecidableEq

/-- Embedding of `types.py::ControlExtraction`. -/
structure ControlExtraction where
  control_id : String
  tsc_category : String
  description : String
  test_result : TestResult
  page_ref : Option Int := none
  confidence : ℚ := 0.9

/-- Embedding of `types.py::DORAMapping`. -/
structure DORAMapping where
  dora_article : String
  dora_control_id : String
  coverage_level : String
  confidence : ℚ
  soc2_control_id : String

/-- One value of `dora_mapping.py::DORA_TO_TSC_MAPPING` (title, tsc_categories,
weight, description). -/
structure ArticleInfo where
  title : String
  tsc_categories : List String
  weight : ℚ
  description : String

/-- One value of the `coverage_by_article` dict built by
`calculate_dora_coverage`. -/
structure CoverageEntry where
  title : String
  coverage_level : String
  confidence : ℚ
  soc2_control : String
  weight : ℚ

/-- Embedding of `types.py::DORACoverageResult`.  The Python `dict[str, ...]` is modelled
as an association list in insertion order (Python dicts preserve insertion
order; keys written twice keep their first position — see `upsertEntry`). -/
structure DORACoverageResult where
  overall_score : ℚ
  articles_covered : Nat
  articles_total : Nat
  coverage_by_article : List (String × CoverageEntry)

/-- Embedding of `dora_mapping.py::DORA_TO_TSC_MAPPING` (lines 16-134), in source order. -/
def DORA_TO_TSC_MAPPING : List (String × ArticleInfo) :=
  [ ("Article 5", ⟨"ICT risk management framework", ["CC1", "CC3", "CC4", "CC9"], 1.0,
      "Governance and accountability for ICT risk management"⟩),
    ("Article 6", ⟨"ICT systems, protocols and tools", ["CC6", "CC7", "CC8", "A"], 1.0,
      "ICT systems resilience and protection"⟩),
    ("Article 7", ⟨"Identification", ["CC3", "CC6"], 0.8,
      "Identification of ICT risks and business functions"⟩),
    ("Article 8", ⟨"Protection and prevention", ["CC5", "CC6", "CC7", "C"], 1.0,
      "ICT security policies and access controls"⟩),
    ("Article 9", ⟨"Detection", ["CC7", "CC4"], 0.8,
      "Detection of anomalous activities and incidents"⟩),
    ("Article 10", ⟨"Response and recovery", ["CC7", "CC9", "A"], 1.0,
      "Incident response and recovery procedures"⟩),
    ("Article 11", ⟨"Backup policies and procedures", ["A", "CC7", "CC9"], 0.9,
      "Data backup and restoration"⟩),
    ("Article 12", ⟨"Learning and evolving", ["CC4", "CC3"], 0.6,
      "Lessons learned and continuous improvement"⟩),
    ("Article 13", ⟨"Communication", ["CC2", "CC7"], 0.7,
      "Crisis communication procedures"⟩),
    ("Article 17", ⟨"ICT-related incident management process", ["CC7", "CC2"], 1.0,
      "Incident classification and management"⟩),
    ("Article 18", ⟨"Classification of ICT-related incidents", ["CC7"], 0.8,
      "Incident classification criteria"⟩),
    ("Article 19", ⟨"Reporting of major ICT-related incidents", ["CC7", "CC2"], 1.0,
      "Regulatory incident reporting"⟩),
    ("Article 24", ⟨"General requirements for testing", ["CC4", "CC7", "A"], 0.9,
      "Testing program requirements"⟩),
    ("Article 25", ⟨"Testing of ICT tools and systems", ["CC7", "CC8", "A"], 0.8,
      "Vulnerability assessments and testing"⟩),
    ("Article 28", ⟨"General principles for third-party risk", ["CC9"], 1.0,
      "Third-party ICT risk management strategy"⟩),
    ("Article 29", ⟨"Preliminary assessment of ICT concentration risk", ["CC3", "CC9"], 0.8,
      "Concentration risk assessment"⟩),
    ("Article 30", ⟨"Key contractual provisions", ["CC9"], 0.9,
      "Contract requirements for ICT services"⟩),
    ("Article 45", ⟨"Information sharing arrangements", ["CC2", "CC7"], 0.5,
      "Threat intelligence sharing"⟩) ]

/-- The controls matched to an article: `dora_mapping.py` lines 170-182.
The source first buckets the controls by upper-cased category (preserving
list order inside each bucket) and then concatenates, for each required
category of the article in order, the bucket of that category.  That is
exactly: for each required category, the sublist of `controls` whose
upper-cased `tsc_category` equals it, concatenated in category order. -/
def article_controls (controls : List ControlExtraction) (cats : List String) :
    List ControlExtraction :=
  cats.flatMap (fun cat => controls.filter (fun c => upperStr c.tsc_category == cat))

/-- Expression `article_controls[0].control_id` guarded by non-emptiness
(`dora_mapping.py` lines 191/195/199). -/
def headControlId : List ControlExtraction → String
  | [] => ""
  | c :: _ => c.control_id

/-- The body of the per-article loop of `map_controls_to_dora`
(`dora_mapping.py` lines 178-207). -/
def map_article (controls : List ControlExtraction) (name : String) (info : ArticleInfo) :
    DORAMapping :=
  let acs := article_controls controls info.tsc_categories
  let req := info.tsc_categories.length
  if acs.length = 0 then
    { dora_article := name, dora_control_id := name, coverage_level := "none",
      confidence := 0, soc2_control_id := "" }
  else if req * 2 ≤ acs.length then
    { dora_article := name, dora_control_id := name, coverage_level := "full",
      confidence := 0.95, soc2_control_id := headControlId acs }
  else if req ≤ acs.length then
    { dora_article := name, dora_control_id := name, coverage_level := "full",
      confidence := 0.85, soc2_control_id := headControlId acs }
  else
    { dora_article := name, dora_control_id := name, coverage_level := "partial",
      confidence := 0.6 + ((acs.length : ℚ) / (req : ℚ)) * 0.25,
      soc2_control_id := headControlId acs }

/-- Embedding of `dora_mapping.py::map_controls_to_dora` (lines 158-209). -/
def map_controls_to_dora (controls : List ControlExtraction) : List DORAMapping :=
  DORA_TO_TSC_MAPPING.map (fun p => map_article controls p.1 p.2)

/-- Lookup `DORA_TO_TSC_MAPPING.get(article, ...)` restricted to the fields
`calculate_dora_coverage` reads. -/
def findArticle (a : String) : Option ArticleInfo :=
  (DORA_TO_TSC_MAPPING.find? (fun p => p.1 == a)).map (fun p => p.2)

/-- Lookup `article_info.get("weight", 1.0)` (`dora_mapping.py` line 233). -/
def article_weight (a : String) : ℚ :=
  match findArticle a with
  | some i => i.weight
  | none => 1

/-- Lookup `article_info.get("title", "")` (`dora_mapping.py` line 248). -/
def article_title (a : String) : String :=
  match findArticle a with
  | some i => i.title
  | none => ""

/-- The dict literal `{"full": 1.0, "partial": 0.5, "none": 0.0}.get(level, 0.0)`
(`dora_mapping.py` lines 235-239). -/
def coverage_score (level : String) : ℚ :=
  if level == "full" then 1 else if level == "partial" then 0.5 else 0

/-- Python dict assignment `d[k] = v`: replaces the value in place if the key
exists, appends otherwise. -/
def upsertEntry (l : List (String × CoverageEntry)) (k : String) (v : CoverageEntry) :
    List (String × CoverageEntry) :=
  match l with
  | [] => [(k, v)]
  | (k', v') :: t => if k' == k then (k, v) :: t else (k', v') :: upsertEntry t k v

/-- The mutable accumulators of the loop in `calculate_dora_coverage`
(`dora_mapping.py` lines 226-229). -/
structure CovState where
  coverage_by_article : List (String × CoverageEntry)
  weighted_score : ℚ
  total_weight : ℚ
  articles_covered : Nat

/-- One iteration of the loop of `calculate_dora_coverage`
(`dora_mapping.py` lines 231-253). -/
def cov_step (st : CovState) (m : DORAMapping) : CovState :=
  let w := article_weight m.dora_article
  { coverage_by_article :=
      upsertEntry st.coverage_by_article m.dora_article
        ⟨article_title m.dora_article, m.coverage_level, m.confidence,
          m.soc2_control_id, w⟩,
    weighted_score := st.weighted_score + coverage_score m.coverage_level * w * m.confidence,
    total_weight := st.total_weight + w,
    articles_covered := st.articles_covered +
      (if m.coverage_level = "full" ∨ m.coverage_level = "partial" then 1 else 0) }

/-- Embedding of `dora_mapping.py::calculate_dora_coverage` (lines 212-262). -/
def calculate_dora_coverage (mappings : List DORAMapping) : DORACoverageResult :=
  if mappings.isEmpty then
    { overall_score := 0, articles_covered := 0,
      articles_total := DORA_TO_TSC_MAPPING.length, coverage_by_article := [] }
  else
    let st := mappings.foldl cov_step ⟨[], 0, 0, 0⟩
    let overall := if 0 < st.total_weight then st.weighted_score / st.total_weight else 0
    { overall_score := round3 overall,
      articles_covered := st.articles_covered,
      articles_total := DORA_TO_TSC_MAPPING.length,
      coverage_by_article := st.coverage_by_article }

/-- The per-result scoring weight asserted by the repository's own test suite
(`test_dora_mapping.py` lines 59-63): effective 1.0, exception 0.3,
not-tested 0.1. -/
def result_weight : TestResult → ℚ
  | .operating_effectively => 1
  | .exception => 0.3
  | .not_tested => 0.1

/-- Embedding of `test_dora_mapping.py::calculate_effective_coverage` (lines 42-84): the
effectiveness-weighted scorer the repository's test suite validates. -/
def calculate_effective_coverage (controls : List ControlExtraction)
    (required_categories : Nat) : String × ℚ :=
  if controls.length = 0 then ("none", 0)
  else
    let effective_count := (controls.filter (fun c => c.test_result == .operating_effectively)).length
    let exception_count := (controls.filter (fun c => c.test_result == .exception)).length
    let not_tested_count := (controls.filter (fun c => c.test_result == .not_tested)).length
    let effective_score : ℚ :=
      (effective_count : ℚ) * 1 + (exception_count : ℚ) * 0.3 + (not_tested_count : ℚ) * 0.1
    let coverage_ratio := effective_score / ((max required_categories 1 : Nat) : ℚ)
    if 1.5 ≤ coverage_ratio ∧ exception_count = 0 then ("full", round3 0.95)
    else if 1 ≤ coverage_ratio ∧ exception_count = 0 then ("full", round3 0.85)
    else if 0.7 ≤ coverage_ratio then
      ("partial", round3 (0.7 - ((exception_count : ℚ) / ((max controls.length 1 : Nat) : ℚ)) * 0.2))
    else if 0.3 ≤ coverage_ratio then ("partial", round3 0.5)
    else ("none", round3 0.2)

/-- Embedding of `soc2_parser_optimized.py::OptimizedSOC2Parser.SINGLE_PASS_MAX_PAGES` (line 69). -/
def SINGLE_PASS_MAX_PAGES : Nat := 80

/-- Embedding of `soc2_parser_optimized.py::OptimizedSOC2Parser.TWO_PASS_MAX_PAGES` (line 70). -/
def TWO_PASS_MAX_PAGES : Nat := 150

/-- The strategy-selection branch of `OptimizedSOC2Parser.parse`
(`soc2_parser_optimized.py` lines 118-126). -/
def select_strategy (estimated_pages : Nat) : ExtractionStrategy :=
  if estimated_pages ≤ SINGLE_PASS_MAX_PAGES then .single_pass
  else if estimated_pages ≤ TWO_PASS_MAX_PAGES then .two_pass
  else .parallel

/-- Test `leadsWith needle hay`: `needle` heads `hay` (character-list version of a
string starting with another). -/
def leadsWith : List Char → List Char → Bool
  | [], _ => true
  | _ :: _, [] => false
  | a :: as, b :: bs => a == b && leadsWith as bs

/-- Test `hasSubList needle hay`: `needle` occurs contiguously in `hay`. -/
def hasSubList (needle : List Char) : List Char → Bool
  | [] => needle.isEmpty
  | b :: bs => leadsWith needle (b :: bs) || hasSubList needle bs

/-- Model of Python `needle in hay` on strings (substring containment). -/
def strHasSub (hay needle : String) : Bool := hasSubList needle.data hay.data

/-- The report-type normalization of `_parse_metadata`
(`soc2_parser_optimized.py` lines 341-342):
`TYPE1 if "1" in report_type_str.lower() else TYPE2`. -/
def parse_report_type (s : String) : ReportType :=
  let l := lowerStr s
  if strHasSub l "1" then .type1 else .type2

/-- The opinion normalization of `_parse_metadata`
(`soc2_parser_optimized.py` lines 345-351). -/
def parse_opinion (s : String) : OpinionType :=
  let l := lowerStr s
  if strHasSub l "qualified" && !(strHasSub l "un") then .qualified
  else if strHasSub l "adverse" then .adverse
  else .unqualified

/-- The test-result normalization of `_parse_controls`
(`soc2_parser_optimized.py` lines 381-387). -/
def parse_test_result (s : String) : TestResult :=
  let l := lowerStr s
  if strHasSub l "exception" then .exception
  else if strHasSub l "not" && strHasSub l "test" then .not_tested
  else .operating_effectively

/-- A calendar date (`datetime.date`): `_parse_date` returns one of these. -/
structure Date where
  year : Nat
  month : Nat
  day : Nat
deriving DecidableEq

/-- Numeric value of an ASCII digit. -/
def digitVal (c : Char) : Nat := c.toNat - 48

/-- The `strptime` directive `%Y` (CPython regex `\d\d\d\d`): exactly four digits. -/
def readY : List Char → Option (Nat × List Char)
  | a :: b :: c :: d :: rest =>
    if a.isDigit && b.isDigit && c.isDigit && d.isDigit then
      some (((digitVal a * 10 + digitVal b) * 10 + digitVal c) * 10 + digitVal d, rest)
    else none
  | _ => none

/-- The `strptime` directive `%m` (CPython regex `1[0-2]|0[1-9]|[1-9]`, alternatives
tried left to right). -/
def readM : List Char → Option (Nat × List Char)
  | a :: b :: rest =>
    if a == '1' && ('0' ≤ b && b ≤ '2') then some (10 + digitVal b, rest)
    else if a == '0' && ('1' ≤ b && b ≤ '9') then some (digitVal b, rest)
    else if '1' ≤ a && a ≤ '9' then some (digitVal a, b :: rest)
    else none
  | [a] => if '1' ≤ a && a ≤ '9' then some (digitVal a, []) else none
  | [] => none

/-- The `strptime` directive `%d` (CPython regex `3[01]|[12]\d|0[1-9]|[1-9]`). -/
def readD : List Char → Option (Nat × List Char)
  | a :: b :: rest =>
    if a == '3' && (b == '0' || b == '1') then some (30 + digitVal b, rest)
    else if ('1' ≤ a && a ≤ '2') && b.isDigit then some (digitVal a * 10 + digitVal b, rest)
    else if a == '0' && ('1' ≤ b && b ≤ '9') then some (digitVal b, rest)
    else if '1' ≤ a && a ≤ '9' then some (digitVal a, b :: rest)
    else none
  | [a] => if '1' ≤ a && a ≤ '9' then some (digitVal a, []) else none
  | [] => none

/-- A literal character in a `strptime` format string. -/
def readCh (c : Char) : List Char → Option (List Char)
  | a :: rest => if a == c then some rest else none
  | [] => none

/-- Python `\s` whitespace class (what a space in a `strptime` format matches). -/
def isSpaceCh (c : Char) : Bool :=
  c == ' ' || c == '\t' || c == '\n' || c == '\r' || c == '\x0b' || c == '\x0c'

/-- Whitespace in a `strptime` format string matches `\s+`. -/
def readWS : List Char → Option (List Char)
  | a :: rest => if isSpaceCh a then some (rest.dropWhile isSpaceCh) else none
  | [] => none

/-- English month names for `%B` (CPython matches them case-insensitively). -/
def MONTH_FULL : List (List Char × Nat) :=
  [ ("january".data, 1), ("february".data, 2), ("march".data, 3), ("april".data, 4),
    ("may".data, 5), ("june".data, 6), ("july".data, 7), ("august".data, 8),
    ("september".data, 9), ("october".data, 10), ("november".data, 11),
    ("december".data, 12) ]

/-- Abbreviated English month names for `%b`. -/
def MONTH_ABBR : List (List Char × Nat) :=
  [ ("jan".data, 1), ("feb".data, 2), ("mar".data, 3), ("apr".data, 4),
    ("may".data, 5), ("jun".data, 6), ("jul".data, 7), ("aug".data, 8),
    ("sep".data, 9), ("oct".data, 10), ("nov".data, 11), ("dec".data, 12) ]

/-- Match one month name (case-insensitively) at the head of the input. -/
def readMonthName : List (List Char × Nat) → List Char → Option (Nat × List Char)
  | [], _ => none
  | (nm, v) :: rest, cs =>
    if leadsWith nm (cs.map Char.toLower) then some (v, cs.drop nm.length)
    else readMonthName rest cs

/-- Gregorian leap year (as `datetime` checks it). -/
def isLeap (y : Nat) : Bool := y % 4 == 0 && (y % 100 != 0 || y % 400 == 0)

/-- Days in a month (as `datetime.date` validates the day). -/
def days_in_month (y m : Nat) : Nat :=
  if m = 2 then (if isLeap y then 29 else 28)
  else if m = 4 ∨ m = 6 ∨ m = 9 ∨ m = 11 then 30
  else 31

/-- Model of `datetime.date(y, m, d)` construction: `ValueError` (modelled as `none`)
unless `1 ≤ y ≤ 9999` and the day fits the month. -/
def mkValidDate (y m d : Nat) : Option Date :=
  if 1 ≤ y && y ≤ 9999 && 1 ≤ d && d ≤ days_in_month y m then some ⟨y, m, d⟩ else none

/-- Model of `datetime.strptime(s, "%Y-%m-%d").date()` (whole input must be consumed). -/
def tryYMD (cs : List Char) : Option Date := do
  let (y, cs) ← readY cs
  let cs ← readCh '-' cs
  let (m, cs) ← readM cs
  let cs ← readCh '-' cs
  let (d, cs) ← readD cs
  if cs.isEmpty then mkValidDate y m d else none

/-- Model of `datetime.strptime(s, "%m/%d/%Y").date()`. -/
def tryMDY (cs : List Char) : Option Date := do
  let (m, cs) ← readM cs
  let cs ← readCh '/' cs
  let (d, cs) ← readD cs
  let cs ← readCh '/' cs
  let (y, cs) ← readY cs
  if cs.isEmpty then mkValidDate y m d else none

/-- Model of `datetime.strptime(s, "%d/%m/%Y").date()`. -/
def tryDMY (cs : List Char) : Option Date := do
  let (d, cs) ← readD cs
  let cs ← readCh '/' cs
  let (m, cs) ← readM cs
  let cs ← readCh '/' cs
  let (y, cs) ← readY cs
  if cs.isEmpty then mkValidDate y m d else none

/-- Model of `datetime.strptime(s, "%B %d, %Y").date()`. -/
def tryBdY (cs : List Char) : Option Date := do
  let (m, cs) ← readMonthName MONTH_FULL cs
  let cs ← readWS cs
  let (d, cs) ← readD cs
  let cs ← readCh ',' cs
  let cs ← readWS cs
  let (y, cs) ← readY cs
  if cs.isEmpty then mkValidDate y m d else none

/-- Model of `datetime.strptime(s, "%b %d, %Y").date()`. -/
def trybdY (cs : List Char) : Option Date := do
  let (m, cs) ← readMonthName MONTH_ABBR cs
  let cs ← readWS cs
  let (d, cs) ← readD cs
  let cs ← readCh ',' cs
  let cs ← readWS cs
  let (y, cs) ← readY cs
  if cs.isEmpty then mkValidDate y m d else none

/-- The format loop of `_parse_date` (`soc2_parser_optimized.py` lines 443-456):
the five formats are tried in source order, the first success wins. -/
def try_formats (cs : List Char) : Option Date :=
  (tryYMD cs).orElse fun _ =>
    (tryMDY cs).orElse fun _ =>
      (tryDMY cs).orElse fun _ =>
        (tryBdY cs).orElse fun _ => trybdY cs

/-- Embedding of `soc2_parser_optimized.py::OptimizedSOC2Parser._parse_date` (lines 437-458).
`date.today()` is impure; it is passed explicitly as `today`. -/
def parse_date (today : Date) (date_str : String) : Date :=
  if date_str = "" then today
  else
    match try_formats date_str.data with
    | some d => d
    | none => today

/-- Spec-side per-mapping contribution to the weighted score:
`coverage_score(level) × weight_A × confidence_A`. -/
def mapping_contrib (m : DORAMapping) : ℚ :=
  coverage_score m.coverage_level * article_weight m.dora_article * m.confidence

/-- Spec-side per-mapping weight `weight_A`. -/
def mapping_weight (m : DORAMapping) : ℚ := article_weight m.dora_article

/-- Test `mapping.coverage_level in ("full", "partial")`. -/
def covered_level (m : DORAMapping) : Bool :=
  m.coverage_level == "full" || m.coverage_level == "partial"

lemma cov_step_weighted_score (st : CovState) (m : DORAMapping) :
    (cov_step st m).weighted_score = st.weighted_score + mapping_contrib m := rfl

lemma foldl_cov_step_weighted_score (ms : List DORAMapping) (st : CovState) :
    (ms.foldl cov_step st).weighted_score
      = st.weighted_score + (ms.map mapping_contrib).sum := by
  induction ms generalizing st with
  | nil => simp
  | cons m ms ih =>
    simp only [List.foldl_cons, List.map_cons, List.sum_cons, ih,
      cov_step_weighted_score]
    ring

lemma cov_step_total_weight (st : CovState) (m : DORAMapping) :
    (cov_step st m).total_weight = st.total_weight + mapping_weight m := rfl

lemma foldl_cov_step_total_weight (ms : List DORAMapping) (st : CovState) :
    (ms.foldl cov_step st).total_weight
      = st.total_weight + (ms.map mapping_weight).sum := by
  induction ms generalizing st with
  | nil => simp
  | cons m ms ih =>
    simp only [List.foldl_cons, List.map_cons, List.sum_cons, ih,
      cov_step_total_weight]
    ring

lemma cov_step_articles_covered (st : CovState) (m : DORAMapping) :
    (cov_step st m).articles_covered
      = st.articles_covered + (if covered_level m then 1 else 0) := by
  show st.articles_covered +
      (if m.coverage_level = "full" ∨ m.coverage_level = "partial" then 1 else 0) = _
  by_cases h1 : m.coverage_level = "full"
  · simp [covered_level, h1]
  · by_cases h2 : m.coverage_level = "partial" <;> simp [covered_level, h1, h2]

lemma foldl_cov_step_articles_covered (ms : List DORAMapping) (st : CovState) :
    (ms.foldl cov_step st).articles_covered
      = st.articles_covered + ms.countP covered_level := by
  induction ms generalizing st with
  | nil => simp
  | cons m ms ih =>
    simp only [List.foldl_cons, List.countP_cons, ih, cov_step_articles_covered]
    omega

/-- Every weight in the static table is positive. -/
lemma table_weights_pos : ∀ p ∈ DORA_TO_TSC_MAPPING, 0 < p.2.weight := by
  intro p hp
  fin_cases hp <;> norm_num

/-- The weight looked up for any article string is positive (entries of the
table are positive; the fallback default is `1.0`). -/
lemma article_weight_pos (a : String) : 0 < article_weight a := by
  unfold article_weight findArticle
  cases h : DORA_TO_TSC_MAPPING.find? (fun p => p.1 == a) with
  | none =>
    show (0 : ℚ) < 1
    norm_num
  | some p =>
    show 0 < p.2.weight
    exact table_weights_pos p (List.mem_of_find?_eq_some h)

/-- Closed form of `calculate_dora_coverage` on a non-empty mapping list:
the accumulation loop computes `round3 (Σ contrib / Σ weight)` and counts the
`full`/`partial` mappings. -/
lemma calculate_dora_coverage_eq (ms : List DORAMapping) (h : ms ≠ []) :
    (calculate_dora_coverage ms).overall_score
        = round3 ((ms.map mapping_contrib).sum / (ms.map mapping_weight).sum)
      ∧ (calculate_dora_coverage ms).articles_covered = ms.countP covered_level := by
  have hne : ms.isEmpty = false := by
    cases ms with
    | nil => exact absurd rfl h
    | cons a l => rfl
  have hw : 0 < (ms.map mapping_weight).sum := by
    refine List.sum_pos _ ?_ ?_
    · intro x hx
      rcases List.mem_map.mp hx with ⟨m, _, rfl⟩
      exact article_weight_pos m.dora_article
    · simpa using h
  unfold calculate_dora_coverage
  rw [hne]
  simp only [Bool.false_eq_true, if_false]
  constructor
  · have h1 := foldl_cov_step_weighted_score ms ⟨[], 0, 0, 0⟩
    have h2 := foldl_cov_step_total_weight ms ⟨[], 0, 0, 0⟩
    simp only [h1, h2, zero_add]
    rw [if_pos hw]
  · have h3 := foldl_cov_step_articles_covered ms ⟨[], 0, 0, 0⟩
    simp only [h3, zero_add]

/-- Claim C4: for every non-empty list of per-article mappings, the overall
coverage score equals `Σ_A coverage_score(level_A) × weight_A × confidence_A`
divided by `Σ_A weight_A`, rounded to 3 decimals (with
`coverage_score(full)=1.0, partial=0.5, none=0.0`), and `articles_covered`
counts exactly the mappings whose level is `full` or `partial`. -/
theorem claim_C4_overall_score_formula (ms : List DORAMapping) (h : ms ≠ []) :
    (calculate_dora_coverage ms).overall_score
        = round3 ((ms.map (fun m =>
              coverage_score m.coverage_level * article_weight m.dora_article
                * m.confidence)).sum
            / (ms.map (fun m => article_weight m.dora_article)).sum)
      ∧ (calculate_dora_coverage ms).articles_covered
        = ms.countP (fun m =>
            m.coverage_level == "full" || m.coverage_level == "partial") :=
  calculate_dora_coverage_eq ms h

/-- Witness for C4 at a concrete two-mapping input:
`(1×0.8×0.95 + 0.5×0.5×0.7) / (0.8+0.5) = 0.935/1.3`, rounded to `0.719`,
with both mappings covered. -/
theorem claim_C4_overall_score_formula_witness :
    ((calculate_dora_coverage
        [⟨"Article 7", "Article 7", "full", 0.95, "C1"⟩,
         ⟨"Article 45", "Article 45", "partial", 0.7, "C2"⟩]).overall_score
      = round3 (((([⟨"Article 7", "Article 7", "full", 0.95, "C1"⟩,
         ⟨"Article 45", "Article 45", "partial", 0.7, "C2"⟩] : List DORAMapping)).map (fun m =>
              coverage_score m.coverage_level * article_weight m.dora_article
                * m.confidence)).sum
            / ((([⟨"Article 7", "Article 7", "full", 0.95, "C1"⟩,
         ⟨"Article 45", "Article 45", "partial", 0.7, "C2"⟩] : List DORAMapping)).map
              (fun m => article_weight m.dora_article)).sum)
      ∧ (calculate_dora_coverage
        [⟨"Article 7", "Article 7", "full", 0.95, "C1"⟩,
         ⟨"Article 45", "Article 45", "partial", 0.7, "C2"⟩]).articles_covered
      = ([⟨"Article 7", "Article 7", "full", 0.95, "C1"⟩,
         ⟨"Article 45", "Article 45", "partial", 0.7, "C2"⟩] : List DORAMapping).countP
          (fun m => m.coverage_level == "full" || m.coverage_level == "partial"))
    ∧ (calculate_dora_coverage
        [⟨"Article 7", "Article 7", "full", 0.95, "C1"⟩,
         ⟨"Article 45", "Article 45", "partial", 0.7, "C2"⟩]).articles_covered = 2 := by
  refine ⟨claim_C4_overall_score_formula _ (List.cons_ne_nil _ _), ?_⟩
  rw [(claim_C4_overall_score_formula _ (List.cons_ne_nil _ _)).2]
  rfl

/-- Claim C3: strategy selection is total and deterministic with thresholds
`T1 = SINGLE_PASS_MAX_PAGES = 80` and `T2 = TWO_PASS_MAX_PAGES = 150`:
`pages ≤ T1 → SINGLE_PASS`, `T1 < pages ≤ T2 → TWO_PASS`,
`T2 < pages → PARALLEL`, including the boundaries. -/
theorem claim_C3_strategy_selection (pages : Nat) :
    (pages ≤ SINGLE_PASS_MAX_PAGES → select_strategy pages = .single_pass)
    ∧ (SINGLE_PASS_MAX_PAGES < pages → pages ≤ TWO_PASS_MAX_PAGES →
        select_strategy pages = .two_pass)
    ∧ (TWO_PASS_MAX_PAGES < pages → select_strategy pages = .parallel) := by
  unfold select_strategy SINGLE_PASS_MAX_PAGES TWO_PASS_MAX_PAGES
  refine ⟨fun h1 => ?_, fun h1 h2 => ?_, fun h1 => ?_⟩
  · rw [if_pos h1]
  · rw [if_neg (by omega), if_pos h2]
  · rw [if_neg (by omega), if_neg (by omega)]

/-- Witness for C3 at the boundary values 80, 81, 150, 151. -/
theorem claim_C3_strategy_selection_witness :
    select_strategy 80 = .single_pass ∧ select_strategy 81 = .two_pass
    ∧ select_strategy 150 = .two_pass ∧ select_strategy 151 = .parallel :=
  ⟨(claim_C3_strategy_selection 80).1 (by decide),
   (claim_C3_strategy_selection 81).2.1 (by decide) (by decide),
   (claim_C3_strategy_selection 150).2.1 (by decide) (by decide),
   (claim_C3_strategy_selection 151).2.2 (by decide)⟩

/-- Claim C10: `_parse_date` is total (the embedding returns a date for every
string), and both for the empty string and for any string on which all five
accepted formats fail it returns `today` — unextractable dates silently become
the day of parsing. -/
theorem claim_C10_date_fallback (today : Date) (s : String)
    (h : s = "" ∨ try_formats s.data = none) :
    parse_date today s = today := by
  unfold parse_date
  rcases h with h | h
  · rw [if_pos h]
  · by_cases he : s = ""
    · rw [if_pos he]
    · rw [if_neg he, h]

/-- Witness for C10: a string matching none of the five formats falls back to
`today` (2026-10-12 here). -/
theorem claim_C10_date_fallback_witness :
    parse_date ⟨2026, 10, 12⟩ "no date found" = ⟨2026, 10, 12⟩ :=
  claim_C10_date_fallback ⟨2026, 10, 12⟩ "no date found" (Or.inr (by decide))

/-- If no control's upper-cased category occurs among the categories `cats`,
no control is collected for them. -/
lemma article_controls_eq_nil (controls : List ControlExtraction)
    (cats : List String)
    (h : ∀ c ∈ controls, upperStr c.tsc_category ∉ cats) :
    article_controls controls cats = [] := by
  induction cats with
  | nil => rfl
  | cons cat cats ih =>
    rw [article_controls, List.flatMap_cons]
    have h1 : controls.filter (fun c => upperStr c.tsc_category == cat) = [] := by
      rw [List.filter_eq_nil_iff]
      intro c hc
      simp only [beq_iff_eq]
      exact fun he => h c hc (he ▸ List.mem_cons_self _ _)
    rw [h1, List.nil_append]
    exact ih (fun c hc hm => h c hc (List.mem_cons_of_mem _ hm))

/-- Claim C5: if no control's (upper-cased) category belongs to an article's
required category set, that article is assessed `none` with confidence 0.0 —
for an arbitrary `ArticleInfo`, hence independently of the article's weight —
and for a table article this assessment is the one `map_controls_to_dora`
emits. -/
theorem claim_C5_uncovered_article_none (controls : List ControlExtraction)
    (name : String) (info : ArticleInfo)
    (h : ∀ c ∈ controls, upperStr c.tsc_category ∉ info.tsc_categories) :
    (map_article controls name info).coverage_level = "none"
    ∧ (map_article controls name info).confidence = 0
    ∧ ((name, info) ∈ DORA_TO_TSC_MAPPING →
        map_article controls name info ∈ map_controls_to_dora controls) := by
  have hnil := article_controls_eq_nil controls info.tsc_categories h
  refine ⟨?_, ?_, fun hmem => List.mem_map_of_mem _ hmem⟩ <;>
    · unfold map_article
      rw [hnil]
      rfl

/-- Witness for C5: a `PI`-category control covers nothing of Article 28
(which requires `CC9`), so Article 28 is `none`/0.0. -/
theorem claim_C5_uncovered_article_none_witness :
    (map_article [⟨"X1", "PI", "", .operating_effectively, none, 0.9⟩]
        "Article 28"
        ⟨"General principles for third-party risk", ["CC9"], 1.0,
          "Third-party ICT risk management strategy"⟩).coverage_level = "none"
    ∧ (map_article [⟨"X1", "PI", "", .operating_effectively, none, 0.9⟩]
        "Article 28"
        ⟨"General principles for third-party risk", ["CC9"], 1.0,
          "Third-party ICT risk management strategy"⟩).confidence = 0
    ∧ (("Article 28",
        (⟨"General principles for third-party risk", ["CC9"], 1.0,
          "Third-party ICT risk management strategy"⟩ : ArticleInfo))
          ∈ DORA_TO_TSC_MAPPING →
        map_article [⟨"X1", "PI", "", .operating_effectively, none, 0.9⟩]
          "Article 28"
          ⟨"General principles for third-party risk", ["CC9"], 1.0,
            "Third-party ICT risk management strategy"⟩
          ∈ map_controls_to_dora
            [⟨"X1", "PI", "", .operating_effectively, none, 0.9⟩]) :=
  claim_C5_uncovered_article_none _ _ _ (by decide)

/-- Unrecognized test-result strings map to `operating_effectively`, the MOST
favorable result under the repository's own effectiveness weights — not the
least favorable one the spec prescribes.  Likewise an unrecognized opinion
becomes `unqualified` and an unrecognized report type becomes `type2`. -/
theorem claim_C6_counterexample :
    parse_test_result "invalid-result" = .operating_effectively
    ∧ result_weight .exception
        < result_weight (parse_test_result "invalid-result")
    ∧ result_weight .not_tested
        < result_weight (parse_test_result "invalid-result")
    ∧ parse_opinion "invalid-opinion" = .unqualified
    ∧ parse_report_type "invalid-type" = .type2 := by
  have h : parse_test_result "invalid-result" = .operating_effectively := by decide
  refine ⟨h, ?_, ?_, by decide, by decide⟩ <;>
    · rw [h]
      norm_num [result_weight]

/-- Claim C6, amended: the three enum-like field parses never raise (the
embeddings are total functions) and are case-insensitive — inputs equal after
lower-casing parse identically — but an unrecognized value defaults to the
MOST favorable category, not the most conservative one: unrecognized test
result → `operating_effectively`, unrecognized opinion → `unqualified`,
unrecognized report type → `type2`. -/
theorem claim_C6_defensive_normalization (s t : String)
    (h : lowerStr s = lowerStr t) :
    (parse_report_type s = parse_report_type t
      ∧ parse_opinion s = parse_opinion t
      ∧ parse_test_result s = parse_test_result t)
    ∧ (strHasSub (lowerStr s) "exception" = false →
        (strHasSub (lowerStr s) "not" && strHasSub (lowerStr s) "test") = false →
        parse_test_result s = .operating_effectively)
    ∧ (strHasSub (lowerStr s) "qualified" = false →
        strHasSub (lowerStr s) "adverse" = false →
        parse_opinion s = .unqualified)
    ∧ (strHasSub (lowerStr s) "1" = false → parse_report_type s = .type2) := by
  refine ⟨⟨?_, ?_, ?_⟩, fun h1 h2 => ?_, fun h1 h2 => ?_, fun h1 => ?_⟩
  · unfold parse_report_type
    rw [h]
  · unfold parse_opinion
    rw [h]
  · unfold parse_test_result
    rw [h]
  · simp [parse_test_result, h1, h2]
  · simp [parse_opinion, h1, h2]
  · simp [parse_report_type, h1]

/-- Witness for C6 (amended): `"Weird RESULT"` and `"weird result"` parse
identically, and being unrecognized they yield `operating_effectively`,
`unqualified` and `type2`. -/
theorem claim_C6_defensive_normalization_witness :
    (parse_report_type "Weird RESULT" = parse_report_type "weird result"
      ∧ parse_opinion "Weird RESULT" = parse_opinion "weird result"
      ∧ parse_test_result "Weird RESULT" = parse_test_result "weird result")
    ∧ (strHasSub (lowerStr "Weird RESULT") "exception" = false →
        (strHasSub (lowerStr "Weird RESULT") "not"
          && strHasSub (lowerStr "Weird RESULT") "test") = false →
        parse_test_result "Weird RESULT" = .operating_effectively)
    ∧ (strHasSub (lowerStr "Weird RESULT") "qualified" = false →
        strHasSub (lowerStr "Weird RESULT") "adverse" = false →
        parse_opinion "Weird RESULT" = .unqualified)
    ∧ (strHasSub (lowerStr "Weird RESULT") "1" = false →
        parse_report_type "Weird RESULT" = .type2) :=
  claim_C6_defensive_normalization "Weird RESULT" "weird result" (by decide)

/-- Claim C1 names the effectiveness-weighted scorer that the repository's own
test suite (`test_dora_mapping.py`) validates; the production
`map_controls_to_dora` ignores test results entirely and scores by control
count alone.  At a single exception-result `CC9` control, the production code
rates Article 28 (required categories `{CC9}`) as `full` with confidence 0.85,
while the repository's own reference scorer — effective score `0.3`, ratio
`0.3` — yields `partial` with confidence 0.5. -/
theorem claim_C1_effectiveness_weighting_divergence :
    (map_controls_to_dora [⟨"EX1", "CC9", "", .exception, none, 0.9⟩]).find?
        (fun m => m.dora_article == "Article 28")
      = some ⟨"Article 28", "Article 28", "full", 0.85, "EX1"⟩
    ∧ calculate_effective_coverage [⟨"EX1", "CC9", "", .exception, none, 0.9⟩] 1
      = ("partial", 0.5) := by
  constructor
  · simp [map_controls_to_dora, DORA_TO_TSC_MAPPING, map_article, article_controls,
      upperStr, headControlId, List.find?]
  · simp only [calculate_effective_coverage, List.filter_cons, List.filter_nil,
      beq_iff_eq, reduceCtorEq]
    norm_num [round3, round_eq]

/-- Claim C2 asserts that any exception-result control forecloses `full`.  The
production `map_controls_to_dora` never inspects test results: with 2 effective
`CC3` controls, 1 effective `CC6` control and 1 exception `CC6` control,
Article 7 (required categories `{CC3, CC6}`) gets 4 matched controls ≥ 2×2 and
is rated `full`/0.95 — whereas the repository's own reference scorer
(`test_dora_mapping.py::test_requires_no_exceptions_for_full`, ratio 1.65 but
one exception) yields `partial` (confidence 0.65). -/
theorem claim_C2_exception_forecloses_full_divergence :
    (map_controls_to_dora
        [⟨"C1", "CC3", "", .operating_effectively, none, 0.9⟩,
         ⟨"C2", "CC3", "", .operating_effectively, none, 0.9⟩,
         ⟨"C3", "CC6", "", .operating_effectively, none, 0.9⟩,
         ⟨"C4", "CC6", "", .exception, none, 0.9⟩]).find?
        (fun m => m.dora_article == "Article 7")
      = some ⟨"Article 7", "Article 7", "full", 0.95, "C1"⟩
    ∧ calculate_effective_coverage
        [⟨"C1", "CC3", "", .operating_effectively, none, 0.9⟩,
         ⟨"C2", "CC3", "", .operating_effectively, none, 0.9⟩,
         ⟨"C3", "CC6", "", .operating_effectively, none, 0.9⟩,
         ⟨"C4", "CC6", "", .exception, none, 0.9⟩] 2
      = ("partial", 0.65) := by
  constructor
  · simp [map_controls_to_dora, DORA_TO_TSC_MAPPING, map_article, article_controls,
      upperStr, headControlId, List.find?]
  · simp only [calculate_effective_coverage, List.filter_cons, List.filter_nil,
      beq_iff_eq, reduceCtorEq]
    norm_num [round3, round_eq]

/-- The assessment `map_controls_to_dora` emits for an article no control maps
to. -/
def none_mapping (a : String) : DORAMapping :=
  { dora_article := a, dora_control_id := a, coverage_level := "none",
    confidence := 0, soc2_control_id := "" }

lemma map_article_nil (name : String) (info : ArticleInfo) :
    map_article [] name info = none_mapping name := by
  unfold map_article
  rw [article_controls_eq_nil [] info.tsc_categories
    (fun c hc => absurd hc (List.not_mem_nil c))]
  rfl

/-- Mapping an empty control list yields one `none`-level mapping per table
article — not an empty list. -/
lemma map_controls_to_dora_nil :
    map_controls_to_dora [] = DORA_TO_TSC_MAPPING.map (fun p => none_mapping p.1) :=
  List.map_congr_left (fun p _ => map_article_nil p.1 p.2)

lemma articles_total_const (ms : List DORAMapping) :
    (calculate_dora_coverage ms).articles_total = DORA_TO_TSC_MAPPING.length := by
  unfold calculate_dora_coverage
  split <;> rfl

/-- Claim C7 says that with no controls at all the coverage computation
returns an EMPTY per-article mapping.  It does not: `map_controls_to_dora []`
produces one `none`-level mapping per table article, so the composed
computation returns a per-article mapping with all 18 articles (overall_score
and articles_covered are 0 as claimed, and articles_total is 18). -/
theorem claim_C7_counterexample :
    (calculate_dora_coverage (map_controls_to_dora [])).coverage_by_article.length = 18
    ∧ (calculate_dora_coverage (map_controls_to_dora [])).overall_score = 0
    ∧ (calculate_dora_coverage (map_controls_to_dora [])).articles_covered = 0
    ∧ (calculate_dora_coverage (map_controls_to_dora [])).articles_total = 18 := by
  have hne : map_controls_to_dora [] ≠ [] := by
    rw [map_controls_to_dora_nil]
    simp [DORA_TO_TSC_MAPPING]
  refine ⟨by decide, ?_, ?_, articles_total_const _⟩
  · rw [(calculate_dora_coverage_eq _ hne).1, map_controls_to_dora_nil]
    have hz : ((DORA_TO_TSC_MAPPING.map (fun p => none_mapping p.1)).map
        mapping_contrib).sum = 0 := by
      apply List.sum_eq_zero
      intro x hx
      rw [List.map_map] at hx
      rcases List.mem_map.mp hx with ⟨p, _, rfl⟩
      simp [mapping_contrib, none_mapping]
    rw [hz, zero_div]
    norm_num [round3]
  · rw [(calculate_dora_coverage_eq _ hne).2, map_controls_to_dora_nil]
    rw [List.countP_map]
    apply List.countP_eq_zero.mpr
    intro p hp
    simp [Function.comp, covered_level, none_mapping]

/-- Claim C7, amended: the empty-result path (overall_score 0, zero covered,
EMPTY per-article mapping, articles_total still 18) is taken exactly when the
MAPPINGS list is empty, not when there are no controls: an empty control list
still maps to one `none`-level entry per table article. -/
theorem claim_C7_empty_mapping_list :
    calculate_dora_coverage []
      = { overall_score := 0, articles_covered := 0, articles_total := 18,
          coverage_by_article := [] }
    ∧ map_controls_to_dora []
      = DORA_TO_TSC_MAPPING.map (fun p => none_mapping p.1) :=
  ⟨rfl, map_controls_to_dora_nil⟩

lemma article_controls_length (cs : List ControlExtraction) (cats : List String) :
    (article_controls cs cats).length
      = (cats.map (fun cat =>
          cs.countP (fun c => upperStr c.tsc_category == cat))).sum := by
  induction cats with
  | nil => rfl
  | cons cat cats ih =>
    rw [article_controls, List.flatMap_cons, List.length_append]
    rw [article_controls] at ih
    rw [ih, List.map_cons, List.sum_cons, List.countP_eq_length_filter]

lemma article_controls_length_perm {cs cs' : List ControlExtraction}
    (h : cs.Perm cs') (cats : List String) :
    (article_controls cs cats).length = (article_controls cs' cats).length := by
  rw [article_controls_length, article_controls_length]
  congr 1
  exact List.map_congr_left (fun cat _ => h.countP_eq _)

lemma map_article_dora_article (cs : List ControlExtraction) (n : String)
    (i : ArticleInfo) : (map_article cs n i).dora_article = n := by
  simp only [map_article]
  split_ifs <;> rfl

lemma map_article_perm_fields {cs cs' : List ControlExtraction}
    (h : cs.Perm cs') (n : String) (i : ArticleInfo) :
    (map_article cs n i).coverage_level = (map_article cs' n i).coverage_level
    ∧ (map_article cs n i).confidence = (map_article cs' n i).confidence := by
  have hl := article_controls_length_perm h i.tsc_categories
  simp only [map_article]
  rw [hl]
  split_ifs <;> simp

lemma map_controls_to_dora_ne_nil (cs : List ControlExtraction) :
    map_controls_to_dora cs ≠ [] := by
  unfold map_controls_to_dora
  simp [DORA_TO_TSC_MAPPING]

/-- Claim C8: the overall coverage score and `articles_covered` computed by
mapping the controls to articles and then aggregating are invariant under any
permutation of the input control list. -/
theorem claim_C8_order_invariance (cs cs' : List ControlExtraction)
    (h : cs.Perm cs') :
    (calculate_dora_coverage (map_controls_to_dora cs)).overall_score
      = (calculate_dora_coverage (map_controls_to_dora cs')).overall_score
    ∧ (calculate_dora_coverage (map_controls_to_dora cs)).articles_covered
      = (calculate_dora_coverage (map_controls_to_dora cs')).articles_covered := by
  have e1 := calculate_dora_coverage_eq _ (map_controls_to_dora_ne_nil cs)
  have e2 := calculate_dora_coverage_eq _ (map_controls_to_dora_ne_nil cs')
  have hcontrib : (map_controls_to_dora cs).map mapping_contrib
      = (map_controls_to_dora cs').map mapping_contrib := by
    unfold map_controls_to_dora
    rw [List.map_map, List.map_map]
    refine List.map_congr_left (fun p _ => ?_)
    show mapping_contrib (map_article cs p.1 p.2)
      = mapping_contrib (map_article cs' p.1 p.2)
    unfold mapping_contrib
    rw [(map_article_perm_fields h p.1 p.2).1, (map_article_perm_fields h p.1 p.2).2,
      map_article_dora_article, map_article_dora_article]
  have hweight : (map_controls_to_dora cs).map mapping_weight
      = (map_controls_to_dora cs').map mapping_weight := by
    unfold map_controls_to_dora
    rw [List.map_map, List.map_map]
    refine List.map_congr_left (fun p _ => ?_)
    show mapping_weight (map_article cs p.1 p.2)
      = mapping_weight (map_article cs' p.1 p.2)
    unfold mapping_weight
    rw [map_article_dora_article, map_article_dora_article]
  have hcount : (map_controls_to_dora cs).countP covered_level
      = (map_controls_to_dora cs').countP covered_level := by
    unfold map_controls_to_dora
    rw [List.countP_map, List.countP_map]
    refine List.countP_congr (fun p _ => ?_)
    show covered_level (map_article cs p.1 p.2) = true
      ↔ covered_level (map_article cs' p.1 p.2) = true
    unfold covered_level
    rw [(map_article_perm_fields h p.1 p.2).1]
  rw [e1.1, e1.2, e2.1, e2.2, hcontrib, hweight, hcount]
  exact ⟨rfl, rfl⟩

/-- Witness for C8: swapping a two-element control list leaves the overall
score and the covered-article count unchanged. -/
theorem claim_C8_order_invariance_witness :
    (calculate_dora_coverage (map_controls_to_dora
        [⟨"C1", "CC3", "", .operating_effectively, none, 0.9⟩,
         ⟨"C2", "CC6", "", .exception, none, 0.9⟩])).overall_score
      = (calculate_dora_coverage (map_controls_to_dora
        [⟨"C2", "CC6", "", .exception, none, 0.9⟩,
         ⟨"C1", "CC3", "", .operating_effectively, none, 0.9⟩])).overall_score
    ∧ (calculate_dora_coverage (map_controls_to_dora
        [⟨"C1", "CC3", "", .operating_effectively, none, 0.9⟩,
         ⟨"C2", "CC6", "", .exception, none, 0.9⟩])).articles_covered
      = (calculate_dora_coverage (map_controls_to_dora
        [⟨"C2", "CC6", "", .exception, none, 0.9⟩,
         ⟨"C1", "CC3", "", .operating_effectively, none, 0.9⟩])).articles_covered :=
  claim_C8_order_invariance _ _
    (List.Perm.swap (⟨"C2", "CC6", "", .exception, none, 0.9⟩ : ControlExtraction)
      (⟨"C1", "CC3", "", .operating_effectively, none, 0.9⟩ : ControlExtraction) [])
/-- Replace a control's `tsc_category` (e.g. by a re-cased variant). -/
def retag (g : ControlExtraction → String) (c : ControlExtraction) : ControlExtraction :=
  { c with tsc_category := g c }

lemma filter_retag (g : ControlExtraction → String) (cat : String)
    (cs : List ControlExtraction)
    (h : ∀ c ∈ cs, upperStr (g c) = upperStr c.tsc_category) :
    (cs.map (retag g)).filter (fun c => upperStr c.tsc_category == cat)
      = (cs.filter (fun c => upperStr c.tsc_category == cat)).map (retag g) := by
  induction cs with
  | nil => rfl
  | cons c cs ih =>
    have hc := h c (List.mem_cons_self c cs)
    have htail := ih (fun x hx => h x (List.mem_cons_of_mem _ hx))
    rw [List.map_cons, List.filter_cons, List.filter_cons]
    have hcond : (upperStr (retag g c).tsc_category == cat)
        = (upperStr c.tsc_category == cat) := by
      show (upperStr (g c) == cat) = _
      rw [hc]
    rw [hcond]
    by_cases hcat : (upperStr c.tsc_category == cat) = true
    · rw [if_pos hcat, if_pos hcat, List.map_cons, htail]
    · rw [if_neg hcat, if_neg hcat, htail]

lemma article_controls_retag (g : ControlExtraction → String)
    (cs : List ControlExtraction) (cats : List String)
    (h : ∀ c ∈ cs, upperStr (g c) = upperStr c.tsc_category) :
    article_controls (cs.map (retag g)) cats
      = (article_controls cs cats).map (retag g) := by
  induction cats with
  | nil => rfl
  | cons cat cats ih =>
    rw [article_controls, article_controls, List.flatMap_cons, List.flatMap_cons,
      List.map_append, filter_retag g cat cs h]
    rw [article_controls] at ih
    rw [ih]
    rfl

lemma headControlId_retag (g : ControlExtraction → String)
    (l : List ControlExtraction) :
    headControlId (l.map (retag g)) = headControlId l := by
  cases l <;> rfl

lemma map_article_retag (g : ControlExtraction → String)
    (cs : List ControlExtraction) (n : String) (i : ArticleInfo)
    (h : ∀ c ∈ cs, upperStr (g c) = upperStr c.tsc_category) :
    map_article (cs.map (retag g)) n i = map_article cs n i := by
  simp only [map_article]
  rw [article_controls_retag g cs i.tsc_categories h, List.length_map,
    headControlId_retag]

/-- Claim C9: coverage results are invariant under re-casing each control's
`tsc_category` (any replacement with the same upper-casing): the mapper
upper-cases categories before grouping, so lower- or mixed-case codes count
toward the table's upper-case required categories. -/
theorem claim_C9_case_invariance (cs : List ControlExtraction)
    (g : ControlExtraction → String)
    (h : ∀ c ∈ cs, upperStr (g c) = upperStr c.tsc_category) :
    map_controls_to_dora (cs.map (retag g)) = map_controls_to_dora cs
    ∧ calculate_dora_coverage (map_controls_to_dora (cs.map (retag g)))
      = calculate_dora_coverage (map_controls_to_dora cs) := by
  have h1 : map_controls_to_dora (cs.map (retag g)) = map_controls_to_dora cs :=
    List.map_congr_left (fun p _ => map_article_retag g cs p.1 p.2 h)
  exact ⟨h1, by rw [h1]⟩

/-- Witness for C9: a lower-case `"cc6"` control is scored exactly like its
upper-cased `"CC6"` variant. -/
theorem claim_C9_case_invariance_witness :
    map_controls_to_dora
        ([⟨"C1", "cc6", "", .operating_effectively, none, 0.9⟩].map
          (retag (fun c => upperStr c.tsc_category)))
      = map_controls_to_dora [⟨"C1", "cc6", "", .operating_effectively, none, 0.9⟩]
    ∧ calculate_dora_coverage (map_controls_to_dora
        ([⟨"C1", "cc6", "", .operating_effectively, none, 0.9⟩].map
          (retag (fun c => upperStr c.tsc_category))))
      = calculate_dora_coverage (map_controls_to_dora
          [⟨"C1", "cc6", "", .operating_effectively, none, 0.9⟩]) :=
  claim_C9_case_invariance _ _ (by decide)
